import Mathlib

/-!
Verification of the TaskFlow backend (`src/backend/src/app.py`) against its
natural-language specification.

The service is embedded shallowly:

* the relational store reached through the SQLAlchemy `Session` is modelled as
  a `List TaskModel` threaded explicitly through every handler (the spec treats
  the database engine as an external collaborator providing insert / query /
  delete by id, so a list of records is a faithful model of its visible state);
* the current time (`datetime.now(timezone.utc)`) and the generated UUID
  (`str(uuid.uuid4())`) are external inputs, so handlers receive them as
  explicit parameters;
* fallible handlers return `Except Nat …` where the `Nat` is the HTTP status
  code the framework would surface (`422` for validation errors, `404` for
  not-found, `500` for an uncaught exception inside a handler);
* timestamps are modelled as integers, `datetime` values carry no structure
  the handlers inspect.
-/

namespace TaskFlow

/-- Modelled from the spec: `TaskStatus` lives in `src/backend/src/models.py`,
which is not part of the sources; the spec fixes its values to
TODO, IN_PROGRESS and DONE (a string-valued enumeration, so every member is
truthy in Python). -/
inductive TaskStatus where
  | TODO
  | IN_PROGRESS
  | DONE
  deriving DecidableEq, Repr, BEq

/-- Modelled from the spec: `TaskPriority` lives in `src/backend/src/models.py`,
which is not part of the sources; the spec fixes its values to
LOW, MEDIUM and HIGH (a string-valued enumeration, so every member is truthy
in Python). -/
inductive TaskPriority where
  | LOW
  | MEDIUM
  | HIGH
  deriving DecidableEq, Repr, BEq

/-- A stored task record (the SQLAlchemy `TaskModel` row, declared in
`models.py`). Column types follow the `Task` response model of `app.py`,
which mirrors the row one-to-one via `from_attributes`. -/
structure TaskModel where
  id : String
  title : String
  description : Option String
  status : TaskStatus
  priority : TaskPriority
  assignee : Option String
  due_date : Option Int
  created_at : Int
  updated_at : Int
  deriving DecidableEq, Repr

/-- The Pydantic response model `Task` of `app.py` (same fields as the row). -/
structure Task where
  id : String
  title : String
  description : Option String
  status : TaskStatus
  priority : TaskPriority
  assignee : Option String
  due_date : Option Int
  created_at : Int
  updated_at : Int
  deriving DecidableEq, Repr

/-- The `response_model=Task` conversion (`from_attributes = True`): each field
of the response is read off the stored record. -/
def Task.ofModel (t : TaskModel) : Task :=
  { id := t.id, title := t.title, description := t.description,
    status := t.status, priority := t.priority, assignee := t.assignee,
    due_date := t.due_date, created_at := t.created_at,
    updated_at := t.updated_at }

/-- The raw request body for `POST /tasks`, before Pydantic validation.
Fields absent from the JSON body are `none`. Enum-typed fields are already
decoded (a body whose `status` is not one of the enumeration's members is
rejected by Pydantic before the handler runs, which the claims never
exercise). -/
structure TaskCreateBody where
  title : Option String
  description : Option String
  status : Option TaskStatus
  priority : Option TaskPriority
  assignee : Option String
  due_date : Option Int
  deriving DecidableEq, Repr

/-- The validated `TaskCreate` Pydantic model of `app.py` (title required,
status defaulting to TODO, priority defaulting to MEDIUM). -/
structure TaskCreate where
  title : String
  description : Option String
  status : TaskStatus
  priority : TaskPriority
  assignee : Option String
  due_date : Option Int
  deriving DecidableEq, Repr

/-- Python's `str.strip()` with no argument: drops leading and trailing
whitespace characters (the ASCII whitespace the claims exercise; Python's
larger Unicode whitespace set makes no difference to any title below). -/
def py_strip (s : String) : String :=
  ⟨((s.data.dropWhile Char.isWhitespace).reverse.dropWhile
      Char.isWhitespace).reverse⟩

/-- Pydantic validation of the `TaskCreate` model: `title` is required with
`min_length=1, max_length=200`, `description` has `max_length=1000`,
`assignee` has `max_length=100`, `status` defaults to `TaskStatus.TODO` and
`priority` to `TaskPriority.MEDIUM`. Any violation surfaces as HTTP 422. -/
def validate_TaskCreate (b : TaskCreateBody) : Except Nat TaskCreate :=
  match b.title with
  | none => .error 422
  | some title =>
    if title.length < 1 || title.length > 200 then .error 422
    else if (match b.description with
             | some d => decide (d.length > 1000)
             | none => false) then .error 422
    else if (match b.assignee with
             | some a => decide (a.length > 100)
             | none => false) then .error 422
    else .ok { title := title, description := b.description,
               status := b.status.getD .TODO,
               priority := b.priority.getD .MEDIUM,
               assignee := b.assignee, due_date := b.due_date }

/-- The body of the `create_task` handler (`app.py` lines 178-221): reject an
empty or whitespace-only title with 422, otherwise build the row with the
freshly generated UUID and append it to the store.

Modelled from the spec: the handler computes `now` but hands the row to
`TaskModel` without timestamps; the column defaults of `models.py` (not in the
sources) set `created_at` and `updated_at`, and the spec states both are the
current time and equal on creation. -/
def create_task (task_data : TaskCreate) (task_id : String) (now : Int)
    (db : List TaskModel) : Except Nat (TaskModel × List TaskModel) :=
  if task_data.title == "" || py_strip task_data.title == "" then .error 422
  else
    let db_task : TaskModel :=
      { id := task_id, title := task_data.title,
        description := task_data.description, status := task_data.status,
        priority := task_data.priority, assignee := task_data.assignee,
        due_date := task_data.due_date, created_at := now, updated_at := now }
    .ok (db_task, db ++ [db_task])

/-- `POST /tasks` end to end: Pydantic validation, then the handler. A failed
request leaves the store untouched. -/
def create_route (body : TaskCreateBody) (task_id : String) (now : Int)
    (db : List TaskModel) : Except Nat TaskModel × List TaskModel :=
  match validate_TaskCreate body with
  | .error e => (.error e, db)
  | .ok task_data =>
    match create_task task_data task_id now db with
    | .error e => (.error e, db)
    | .ok (t, db2) => (.ok t, db2)

/-- The `get_task` handler (`app.py` lines 169-175): `task_id` is a string
path parameter; the first row whose id matches is returned, else 404. -/
def get_task (task_id : String) (db : List TaskModel) : Except Nat Task :=
  match db.find? (fun t => t.id == task_id) with
  | none => .error 404
  | some t => .ok (Task.ofModel t)

/-- Python truthiness of an `Optional[str]`: `None` and the empty string are
falsy, every other string is truthy (`if assignee:` in `get_tasks`). -/
def truthyStr (s : Option String) : Bool :=
  match s with
  | none => false
  | some v => v != ""

/-- The `get_tasks` handler (`app.py` lines 149-166): each filter is applied
only when its value is truthy. Enum members are truthy (string-valued
enumerations with non-empty values), so `if status:` and `if priority:` test
presence; `if assignee:` additionally skips the filter on the empty string. -/
def get_tasks (status : Option TaskStatus) (priority : Option TaskPriority)
    (assignee : Option String) (db : List TaskModel) : List TaskModel :=
  let q := db
  let q := match status with
           | some s => q.filter (fun t => t.status == s)
           | none => q
  let q := match priority with
           | some p => q.filter (fun t => t.priority == p)
           | none => q
  let q := if truthyStr assignee then
             q.filter (fun t => t.assignee == assignee)
           else q
  q

/-- The `delete_task` handler (`app.py` lines 290-301): look the row up by its
string id, 404 when absent, otherwise delete that row and commit. -/
def delete_route (task_id : String) (db : List TaskModel) :
    Except Nat Unit × List TaskModel :=
  match db.find? (fun t => t.id == task_id) with
  | none => (.error 404, db)
  | some _ => (.ok (), db.eraseP (fun t => t.id == task_id))

/-- The raw request body for `PUT /tasks/{task_id}`: the Pydantic `TaskUpdate`
model makes every field optional for partial updates. `none` stands for a
field absent from the body (the handler crashes before
`model_dump(exclude_unset=True)` could distinguish an explicit `null` from an
absent field, so the two are conflated). -/
structure TaskUpdateBody where
  title : Option String
  description : Option String
  status : Option TaskStatus
  priority : Option TaskPriority
  assignee : Option String
  due_date : Option Int
  deriving DecidableEq, Repr

/-- Pydantic validation of the `TaskUpdate` model: a supplied `title` must
have `min_length=1, max_length=200`, a supplied `description` `max_length=1000`
and a supplied `assignee` `max_length=100`; violations surface as HTTP 422. -/
def validate_TaskUpdate (b : TaskUpdateBody) : Except Nat TaskUpdateBody :=
  if (match b.title with
      | some t => decide (t.length < 1 || t.length > 200)
      | none => false) then .error 422
  else if (match b.description with
           | some d => decide (d.length > 1000)
           | none => false) then .error 422
  else if (match b.assignee with
           | some a => decide (a.length > 100)
           | none => false) then .error 422
  else .ok b

/-- Decodes a non-empty all-digit character list as a decimal numeral. -/
def dec_digits (cs : List Char) : Option Nat :=
  if cs.all (fun c => c.isDigit) && !cs.isEmpty then
    some (cs.foldl (fun a c => 10 * a + (c.toNat - 48)) 0)
  else none

/-- Integer parsing on a character list: an optionally sign-led string of
decimal digits parses, anything else is rejected. -/
def parse_int_list : List Char → Option Int
  | [] => none
  | c :: cs =>
    if c == '-' then (dec_digits cs).map (fun n => -(n : Int))
    else (dec_digits (c :: cs)).map (fun n => (n : Int))

/-- The framework's coercion of the `{task_id}` path segment demanded by the
`task_id: int` annotation of `update_task` (`app.py` line 225): an optionally
sign-led string of decimal digits parses as an integer, anything else is
rejected with HTTP 422 before the handler runs. -/
def parse_int_path (s : String) : Option Int :=
  parse_int_list s.data

/-- Shape of the ids issued by `create_task` at the character-list level. -/
def is_uuid4_list : List Char → Bool
  | [] => false
  | c :: rest =>
    (c.isDigit || ('a' ≤ c && c ≤ 'f')) && rest.length == 35 &&
      rest.contains '-' &&
      rest.all (fun d => d.isDigit || ('a' ≤ d && d ≤ 'f') || d == '-')

/-- Shape of the ids issued by `create_task`, which calls `str(uuid.uuid4())`:
36 characters, the first a lowercase hex digit, the remaining 35 lowercase hex
digits or hyphens with at least one hyphen present (a UUID4 string always
contains four). This is the part of the UUID shape the proofs rely on. -/
def is_uuid4_string (s : String) : Bool :=
  is_uuid4_list s.data

/-- The body of the `update_task` handler (`app.py` lines 224-287), as
written. `tasks_db` is bound to the first row whose id column equals the
integer `task_id` (the store's type affinity compares the text column against
the decimal rendering of the integer); a missing row yields 404. When a row
is found, the leftover in-memory-map line `if task_id not in tasks_db:`
applies a membership test to a single `TaskModel` row, which raises
`TypeError` — surfaced as HTTP 500. Every later line of the handler,
including the `setattr(task, …)` loop over the undefined variable `task`,
is unreachable, so no branch returns a task. -/
def update_task (task_id : Int) (updates : TaskUpdateBody)
    (db : List TaskModel) : Except Nat Task :=
  match db.find? (fun t => t.id == toString task_id) with
  | none => .error 404
  | some _ => .error 500

/-- `PUT /tasks/{task_id}` end to end: path coercion to `int` and body
validation, then the handler. No branch reaches a commit, so the store is
returned unchanged in every case. -/
def update_route (task_id : String) (body : TaskUpdateBody)
    (db : List TaskModel) : Except Nat Task × List TaskModel :=
  match parse_int_path task_id with
  | none => (.error 422, db)
  | some n =>
    match validate_TaskUpdate body with
    | .error e => (.error e, db)
    | .ok updates =>
      match update_task n updates db with
      | .error e => (.error e, db)
      | .ok t => (.ok t, db)

/-- The persistence collaborator as seen by `health_check`: either reachable
with its stored rows, or unreachable with the error description the raised
exception carries. -/
inductive DbConn where
  | conn (db : List TaskModel)
  | down (err : String)

/-- The JSON object `health_check` returns: `tasks_count` is present exactly
on the healthy branch. -/
structure HealthResponse where
  status : String
  database : String
  tasks_count : Option Nat
  deriving DecidableEq, Repr

/-- The `health_check` handler (`app.py` lines 134-146): probe the store and
count the rows inside a `try`; any exception is caught and converted into an
"unhealthy" response carrying the error description — nothing propagates to
the caller. -/
def health_check (c : DbConn) : HealthResponse :=
  match c with
  | .conn db =>
    { status := "healthy", database := "connected",
      tasks_count := some db.length }
  | .down e => { status := "unhealthy", database := e, tasks_count := none }

/-- States of the store reachable through the service's mutating routes,
starting from the empty store. The UUID generated for each create is an
external input constrained only to its shape (`str(uuid.uuid4())` always
produces such a string). Every outcome of a route, error or success, is a
step, since an error leaves the store as the route returned it. -/
inductive Reachable : List TaskModel → Prop
  | init : Reachable []
  | create (db : List TaskModel) (body : TaskCreateBody) (newId : String)
      (now : Int) (r : Except Nat TaskModel) (db2 : List TaskModel)
      (hdb : Reachable db) (hid : is_uuid4_string newId = true)
      (h : create_route body newId now db = (r, db2)) : Reachable db2
  | update (db : List TaskModel) (path : String) (body : TaskUpdateBody)
      (r : Except Nat Task) (db2 : List TaskModel)
      (hdb : Reachable db) (h : update_route path body db = (r, db2)) :
      Reachable db2
  | delete (db : List TaskModel) (path : String)
      (r : Except Nat Unit) (db2 : List TaskModel)
      (hdb : Reachable db) (h : delete_route path db = (r, db2)) :
      Reachable db2

/-- The AND of the supplied equality filters of `get_tasks`, as the spec
describes them: a task matches when every supplied filter equals the
corresponding field. -/
def matches_filters (status : Option TaskStatus) (priority : Option TaskPriority)
    (assignee : Option String) (t : TaskModel) : Bool :=
  (match status with
   | some s => t.status == s
   | none => true) &&
  (match priority with
   | some p => t.priority == p
   | none => true) &&
  (match assignee with
   | some a => t.assignee == some a
   | none => true)

/-! ### Concrete sample values, used to witness the theorems -/

/-- A concrete UUID4-shaped id, as `str(uuid.uuid4())` issues them. -/
def sampleId : String := "8f14e45f-ceea-467f-a8cb-9f3c5e6a0b12"

/-- A second concrete UUID4-shaped id for a pre-existing row. -/
def otherId : String := "2e7d2c03-a950-4e4c-91d1-0809d17e8d42"

/-- A valid create body. -/
def sampleBody : TaskCreateBody :=
  { title := some "Write spec", description := none, status := none,
    priority := none, assignee := some "bob", due_date := none }

/-- The row `create_route sampleBody sampleId 5 []` stores and returns. -/
def sampleTask : TaskModel :=
  { id := sampleId, title := "Write spec", description := none,
    status := .TODO, priority := .MEDIUM, assignee := some "bob",
    due_date := none, created_at := 5, updated_at := 5 }

/-- An update body supplying no field at all (the empty partial input). -/
def emptyUpdateBody : TaskUpdateBody :=
  { title := none, description := none, status := none, priority := none,
    assignee := none, due_date := none }

/-- An update body supplying only the whitespace-only title. -/
def blankTitleUpdateBody : TaskUpdateBody :=
  { title := some "   ", description := none, status := none,
    priority := none, assignee := none, due_date := none }

/-- A create body whose title is whitespace-only. -/
def blankTitleCreateBody : TaskCreateBody :=
  { title := some "   ", description := none, status := none,
    priority := none, assignee := none, due_date := none }

/-! ### Helper lemmas -/

/-- A UUID-shaped string never parses as an integer: its head is a hex digit
(so not a sign) and it contains a hyphen, which is not a decimal digit. -/
theorem is_uuid4_list_parse_none (l : List Char) (h : is_uuid4_list l = true) :
    parse_int_list l = none := by
  cases l with
  | nil => rfl
  | cons c rest =>
    simp only [is_uuid4_list, Bool.and_eq_true] at h
    obtain ⟨⟨⟨hc, _⟩, hcont⟩, _⟩ := h
    have hdash : '-' ∈ rest := by simpa [List.contains] using hcont
    have hcne : (c == '-') = false := by
      cases hcc : (c == '-') with
      | false => rfl
      | true =>
        have hceq : c = '-' := by simpa using hcc
        subst hceq
        simp at hc
    have hnall : ((c :: rest).all (fun d => d.isDigit)) = false := by
      cases hba : (c :: rest).all (fun d => d.isDigit) with
      | false => rfl
      | true =>
        have hdig := List.all_eq_true.mp hba '-' (List.mem_cons_of_mem c hdash)
        simp at hdig
    simp only [parse_int_list, hcne, if_false, Bool.false_eq_true,
      dec_digits, hnall, Bool.false_and, Option.map_none]
    rfl

/-- String-level version of `is_uuid4_list_parse_none`. -/
theorem is_uuid4_string_parse_none (s : String)
    (h : is_uuid4_string s = true) : parse_int_path s = none :=
  is_uuid4_list_parse_none s.data h

/-- Characterisation of a successful `create_task`: the returned row carries
the supplied data, the generated id, equal timestamps, it is appended to the
store, and its title passed the emptiness check. -/
theorem create_task_ok_spec (td : TaskCreate) (newId : String) (now : Int)
    (db : List TaskModel) (t : TaskModel) (db2 : List TaskModel)
    (h : create_task td newId now db = .ok (t, db2)) :
    t.id = newId ∧ t.title = td.title ∧ t.description = td.description ∧
    t.status = td.status ∧ t.priority = td.priority ∧
    t.assignee = td.assignee ∧ t.due_date = td.due_date ∧
    t.created_at = now ∧ t.updated_at = now ∧ db2 = db ++ [t] ∧
    t.title ≠ "" ∧ py_strip t.title ≠ "" := by
  unfold create_task at h
  split at h
  · exact absurd h (by simp)
  · rename_i hcond
    simp only [Bool.or_eq_true, beq_iff_eq, not_or] at hcond
    simp only [Except.ok.injEq, Prod.mk.injEq] at h
    obtain ⟨ht, hdb2⟩ := h
    subst ht
    subst hdb2
    exact ⟨rfl, rfl, rfl, rfl, rfl, rfl, rfl, rfl, rfl, rfl,
      hcond.1, hcond.2⟩

/-- A failing `validate_TaskCreate` always reports HTTP 422. -/
theorem validate_TaskCreate_error (b : TaskCreateBody) (e : Nat)
    (h : validate_TaskCreate b = .error e) : e = 422 := by
  unfold validate_TaskCreate at h
  split at h
  · simpa using h.symm
  · split at h
    · simpa using h.symm
    · split at h
      · simpa using h.symm
      · split at h
        · simpa using h.symm
        · exact absurd h (by simp)

/-- A failing `create_task` always reports HTTP 422. -/
theorem create_task_error (td : TaskCreate) (newId : String) (now : Int)
    (db : List TaskModel) (e : Nat)
    (h : create_task td newId now db = .error e) : e = 422 := by
  unfold create_task at h
  split at h
  · simpa using h.symm
  · exact absurd h (by simp)

/-- A failing `create_route` leaves the store untouched and reports 422. -/
theorem create_route_error_spec (body : TaskCreateBody) (newId : String)
    (now : Int) (db : List TaskModel) (e : Nat) (db2 : List TaskModel)
    (h : create_route body newId now db = (.error e, db2)) :
    db2 = db ∧ e = 422 := by
  unfold create_route at h
  split at h
  · rename_i e2 hv
    simp only [Prod.mk.injEq, Except.error.injEq] at h
    exact ⟨h.2.symm, h.1 ▸ validate_TaskCreate_error body e2 hv⟩
  · rename_i td hv
    split at h
    · rename_i e2 hct
      simp only [Prod.mk.injEq, Except.error.injEq] at h
      exact ⟨h.2.symm, h.1 ▸ create_task_error td newId now db e2 hct⟩
    · exact absurd h (by simp)

/-- A successful `create_route` is a successful `create_task` on the
validated body. -/
theorem create_route_ok_spec (body : TaskCreateBody) (newId : String)
    (now : Int) (db : List TaskModel) (t : TaskModel) (db2 : List TaskModel)
    (h : create_route body newId now db = (.ok t, db2)) :
    ∃ td, validate_TaskCreate body = .ok td ∧
      create_task td newId now db = .ok (t, db2) := by
  unfold create_route at h
  split at h
  · exact absurd h (by simp)
  · rename_i td hv
    split at h
    · exact absurd h (by simp)
    · rename_i t2 db3 hct
      simp only [Prod.mk.injEq, Except.ok.injEq] at h
      exact ⟨td, hv, by rw [hct, h.1, h.2]⟩

/-- A successful `validate_TaskCreate` keeps the supplied title verbatim. -/
theorem validate_TaskCreate_ok_title (b : TaskCreateBody) (td : TaskCreate)
    (h : validate_TaskCreate b = .ok td) : b.title = some td.title := by
  unfold validate_TaskCreate at h
  split at h
  · exact absurd h (by simp)
  · rename_i title hsome
    split at h
    · exact absurd h (by simp)
    · split at h
      · exact absurd h (by simp)
      · split at h
        · exact absurd h (by simp)
        · simp only [Except.ok.injEq] at h
          rw [hsome, ← h]

/-- The handler body of `update_task` never returns a task: either the row is
missing (404) or the leftover membership test raises (500). -/
theorem update_task_not_ok (n : Int) (b : TaskUpdateBody)
    (db : List TaskModel) (t : Task) : update_task n b db ≠ .ok t := by
  unfold update_task
  split <;> simp

/-- `update_route` returns the store unchanged and never a success. -/
theorem update_route_spec (p : String) (b : TaskUpdateBody)
    (db : List TaskModel) :
    (update_route p b db).2 = db ∧ (update_route p b db).1.isOk = false := by
  unfold update_route
  split
  · exact ⟨rfl, rfl⟩
  · split
    · exact ⟨rfl, rfl⟩
    · split
      · exact ⟨rfl, rfl⟩
      · rename_i t heq
        exact absurd heq (update_task_not_ok _ _ db t)

/-- When the path id is UUID-shaped, `update_route` rejects the request with
422 before the handler runs and leaves the store untouched. -/
theorem update_route_uuid_422 (p : String) (b : TaskUpdateBody)
    (db : List TaskModel) (h : is_uuid4_string p = true) :
    update_route p b db = (.error 422, db) := by
  unfold update_route
  rw [is_uuid4_string_parse_none p h]

/-- Everything in the store after a `delete_route` was in it before. -/
theorem delete_route_subset (p : String) (db : List TaskModel)
    (r : Except Nat Unit) (db2 : List TaskModel)
    (h : delete_route p db = (r, db2)) : ∀ t ∈ db2, t ∈ db := by
  unfold delete_route at h
  split at h
  · simp only [Prod.mk.injEq] at h
    intro t ht
    exact h.2 ▸ ht
  · simp only [Prod.mk.injEq] at h
    intro t ht
    exact List.eraseP_subset db (h.2 ▸ ht)

/-- Invariant of every reachable store: each row's title is non-empty, not
whitespace-only, and its id is UUID-shaped. Creates enforce the title check
and stamp UUID-shaped ids, updates never touch the store, deletes only
remove rows. -/
theorem reachable_inv (db : List TaskModel) (h : Reachable db) :
    ∀ t ∈ db, t.title ≠ "" ∧ py_strip t.title ≠ "" ∧
      is_uuid4_string t.id = true := by
  induction h with
  | init =>
    intro t ht
    exact absurd ht (List.not_mem_nil t)
  | create db body newId now r db2 hdb hid hcr ih =>
    intro t ht
    cases r with
    | error e =>
      have hdb2 := (create_route_error_spec body newId now db e db2 hcr).1
      exact ih t (hdb2 ▸ ht)
    | ok tc =>
      obtain ⟨td, _, hct⟩ := create_route_ok_spec body newId now db tc db2 hcr
      obtain ⟨hidq, _, _, _, _, _, _, _, _, hdb2, hne, hstrip⟩ :=
        create_task_ok_spec td newId now db tc db2 hct
      subst hdb2
      rcases List.mem_append.mp ht with hmem | hmem
      · exact ih t hmem
      · have hteq : t = tc := by simpa using hmem
        subst hteq
        exact ⟨hne, hstrip, by rw [hidq]; exact hid⟩
  | update db path body r db2 hdb hup ih =>
    have hsnd := (update_route_spec path body db).1
    rw [hup] at hsnd
    intro t ht
    exact ih t (hsnd ▸ ht)
  | delete db path r db2 hdb hdel ih =>
    intro t ht
    exact ih t (delete_route_subset path db r db2 hdel t ht)

/-- The singleton store produced by one successful create is reachable. -/
theorem sampleDb_reachable : Reachable [sampleTask] :=
  Reachable.create [] sampleBody sampleId 5 (.ok sampleTask) [sampleTask]
    Reachable.init (by decide) (by rfl)

/-! ### Claim theorems -/

/-- C2: for every valid create input, the returned task has
`created_at = updated_at`, both the current time, and carries the freshly
generated id, which is not among the previously issued ids whenever the
generator produced a fresh one (UUID4's guarantee). -/
theorem create_timestamps_equal_and_id_fresh (body : TaskCreateBody)
    (newId : String) (now : Int) (db : List TaskModel)
    (issued : List String) (t : TaskModel) (db2 : List TaskModel)
    (hok : create_route body newId now db = (.ok t, db2))
    (hfresh : newId ∉ issued) :
    t.created_at = now ∧ t.updated_at = now ∧
    t.created_at = t.updated_at ∧ t.id ∉ issued := by
  obtain ⟨td, _, hct⟩ := create_route_ok_spec body newId now db t db2 hok
  obtain ⟨hid, _, _, _, _, _, _, hca, hua, _, _, _⟩ :=
    create_task_ok_spec td newId now db t db2 hct
  exact ⟨hca, hua, by rw [hca, hua], by rw [hid]; exact hfresh⟩

/-- Witness for C2 at the sample create on the empty store. -/
theorem create_timestamps_equal_and_id_fresh_witness :
    sampleTask.created_at = 5 ∧ sampleTask.updated_at = 5 ∧
    sampleTask.created_at = sampleTask.updated_at ∧
    sampleTask.id ∉ [otherId] :=
  create_timestamps_equal_and_id_fresh sampleBody sampleId 5 [] [otherId]
    sampleTask [sampleTask] (by rfl) (by decide)

/-- C3: updating a stored task with the whitespace-only title rejects the
request with a 422 validation error and leaves the store exactly as it was
(here because the framework's path coercion to `int` already rejects the
task's UUID-shaped id before the handler runs). -/
theorem update_blank_title_rejected (db : List TaskModel) (t : TaskModel)
    (hdb : Reachable db) (ht : t ∈ db) :
    update_route t.id blankTitleUpdateBody db = (.error 422, db) :=
  update_route_uuid_422 t.id blankTitleUpdateBody db
    ((reachable_inv db hdb t ht).2.2)

/-- Witness for C3 at the reachable singleton store. -/
theorem update_blank_title_rejected_witness :
    update_route sampleTask.id blankTitleUpdateBody [sampleTask] =
      (.error 422, [sampleTask]) :=
  update_blank_title_rejected [sampleTask] sampleTask sampleDb_reachable
    (by simp)

/-- C7: in every state reachable by creates, updates and deletes, no stored
task has an empty or whitespace-only title. -/
theorem reachable_titles_nonblank (db : List TaskModel) (t : TaskModel)
    (hdb : Reachable db) (ht : t ∈ db) :
    t.title ≠ "" ∧ py_strip t.title ≠ "" :=
  ⟨(reachable_inv db hdb t ht).1, (reachable_inv db hdb t ht).2.1⟩

/-- Witness for C7 at the reachable singleton store. -/
theorem reachable_titles_nonblank_witness :
    sampleTask.title ≠ "" ∧ py_strip sampleTask.title ≠ "" :=
  reachable_titles_nonblank [sampleTask] sampleTask sampleDb_reachable
    (by simp)

/-- C8: `health_check` never raises: a reachable store yields the healthy
response carrying the stored-task count, an unreachable one yields the
degraded response carrying the error description. -/
theorem health_check_reports (db : List TaskModel) (e : String) :
    health_check (.conn db) =
      { status := "healthy", database := "connected",
        tasks_count := some db.length } ∧
    health_check (.down e) =
      { status := "unhealthy", database := e, tasks_count := none } :=
  ⟨rfl, rfl⟩

/-- C9: the update route never returns a successfully updated task and never
changes the store, whatever the path, body and stored rows are. -/
theorem update_route_never_returns_task (p : String) (b : TaskUpdateBody)
    (db : List TaskModel) :
    (update_route p b db).1.isOk = false ∧ (update_route p b db).2 = db :=
  ⟨(update_route_spec p b db).2, (update_route_spec p b db).1⟩

/-- C10: a supplied empty-string assignee filter is falsy in the handler's
truthiness test, so the filter is skipped and every stored task is
returned. -/
theorem list_empty_assignee_returns_all (db : List TaskModel) :
    get_tasks none none (some "") db = db := rfl

/-- C1: the spec requires an empty partial update to succeed and change only
`updated_at`; the code instead rejects it. At the concrete stored task
issued by create (UUID id), the empty-bodied update returns HTTP 422 with
the store untouched. -/
theorem update_empty_input_rejected :
    update_route sampleTask.id emptyUpdateBody [sampleTask] =
      (.error 422, [sampleTask]) := rfl

/-- C4: a create whose title is missing, empty, or whitespace-only is
rejected with HTTP 422 and the store is left exactly as it was, so the
stored-task count is unchanged. -/
theorem create_invalid_title_rejected (body : TaskCreateBody)
    (newId : String) (now : Int) (db : List TaskModel)
    (h : body.title = none ∨ body.title = some "" ∨
         ∃ s, body.title = some s ∧ py_strip s = "") :
    create_route body newId now db = (.error 422, db) := by
  have main : ∀ s, body.title = some s → py_strip s = "" →
      create_route body newId now db = (.error 422, db) := by
    intro s hsome hstrip
    unfold create_route
    split
    · rename_i e hv
      rw [validate_TaskCreate_error body e hv]
    · rename_i td hv
      have hts : td.title = s := by
        have := validate_TaskCreate_ok_title body td hv
        rw [hsome] at this
        exact (Option.some_inj.mp this).symm
      split
      · rename_i e hct
        rw [create_task_error td newId now db e hct]
      · rename_i t db3 hct
        exfalso
        have hstrip2 := (create_task_ok_spec td newId now db t db3 hct).2.2.2.2.2.2.2.2.2.2.2
        have hteq := (create_task_ok_spec td newId now db t db3 hct).2.1
        rw [hteq, hts] at hstrip2
        exact hstrip2 hstrip
  rcases h with h0 | h0 | ⟨s, h0, hstrip⟩
  · unfold create_route validate_TaskCreate
    rw [h0]
  · exact main "" h0 rfl
  · exact main s h0 hstrip

/-- Witness for C4 at the whitespace-only-title body on the empty store. -/
theorem create_invalid_title_rejected_witness :
    create_route blankTitleCreateBody sampleId 5 [] = (.error 422, []) :=
  create_invalid_title_rejected blankTitleCreateBody sampleId 5 []
    (Or.inr (Or.inr ⟨"   ", rfl, rfl⟩))

/-- C5: reading back the id returned by a successful create yields a task
equal to the created one in every field, provided the generated id is fresh
for the store (UUID4's guarantee). -/
theorem get_after_create_returns_created (body : TaskCreateBody)
    (newId : String) (now : Int) (db : List TaskModel) (t : TaskModel)
    (db2 : List TaskModel)
    (hok : create_route body newId now db = (.ok t, db2))
    (hfresh : ∀ u ∈ db, u.id ≠ newId) :
    get_task t.id db2 = .ok (Task.ofModel t) := by
  obtain ⟨td, _, hct⟩ := create_route_ok_spec body newId now db t db2 hok
  obtain ⟨hid, _, _, _, _, _, _, _, _, hdb2, _, _⟩ :=
    create_task_ok_spec td newId now db t db2 hct
  subst hdb2
  unfold get_task
  have h1 : db.find? (fun u => u.id == t.id) = none := by
    refine List.find?_eq_none.mpr (fun u hu => ?_)
    simp only [beq_iff_eq]
    rw [hid]
    exact hfresh u hu
  have hfind : (db ++ [t]).find? (fun u => u.id == t.id) = some t := by
    rw [List.find?_append, h1]
    simp [List.find?]
  rw [hfind]

/-- Witness for C5 at the sample create on the empty store. -/
theorem get_after_create_returns_created_witness :
    get_task sampleTask.id [sampleTask] = .ok (Task.ofModel sampleTask) :=
  get_after_create_returns_created sampleBody sampleId 5 [] sampleTask
    [sampleTask] (by rfl) (by simp)

/-- C6 counterexample: with the assignee filter supplied as the empty string,
`get_tasks` returns a stored task that does not match the supplied filters
(its assignee is "bob", not ""), so list does not return exactly the
matching tasks. -/
theorem list_filter_exactness_counterexample :
    get_tasks none none (some "") [sampleTask] = [sampleTask] ∧
    matches_filters none none (some "") sampleTask = false :=
  ⟨rfl, rfl⟩

/-- C6 (amended): whenever a supplied assignee filter is non-empty, list
returns exactly the stored tasks matching every supplied filter (AND
semantics); with no filters supplied it returns all stored tasks, and with
status=DONE exactly the DONE subset. A supplied empty-string assignee is
treated as an absent filter. -/
theorem list_filters_and_semantics (st : Option TaskStatus)
    (pr : Option TaskPriority) (asg : Option String) (db : List TaskModel)
    (h : asg ≠ some "") :
    get_tasks st pr asg db = db.filter (fun t => matches_filters st pr asg t) ∧
    get_tasks none none none db = db ∧
    get_tasks (some .DONE) none none db =
      db.filter (fun t => t.status == TaskStatus.DONE) := by
  refine ⟨?_, rfl, rfl⟩
  rcases asg with _ | a
  · rcases st with _ | s <;> rcases pr with _ | p <;>
      simp [get_tasks, matches_filters, truthyStr, List.filter_filter,
        Bool.and_assoc, Bool.and_comm, Bool.and_left_comm]
  · have ha : (a == "") = false :=
      beq_eq_false_iff_ne.mpr (fun hE => h (by rw [hE]))
    rcases st with _ | s <;> rcases pr with _ | p <;>
      simp [get_tasks, matches_filters, truthyStr, List.filter_filter, bne,
        ha, Bool.and_assoc, Bool.and_comm, Bool.and_left_comm]

/-- Witness for C6 (amended) at a concrete non-empty assignee filter. -/
theorem list_filters_and_semantics_witness :
    get_tasks (some .DONE) none (some "bob") [sampleTask] =
      [sampleTask].filter
        (fun t => matches_filters (some .DONE) none (some "bob") t) ∧
    get_tasks none none none [sampleTask] = [sampleTask] ∧
    get_tasks (some .DONE) none none [sampleTask] =
      [sampleTask].filter (fun t => t.status == TaskStatus.DONE) :=
  list_filters_and_semantics (some .DONE) none (some "bob") [sampleTask]
    (by decide)

end TaskFlow
